import Mathlib

/-!
Shallow embedding of `src/query.py` (DanCardin/query), a deferred-evaluation
SQL query builder written in a fluent style.

Python objects are modelled as attribute dictionaries living in a heap (a
list of objects; an address is an index; allocation appends), so that
attribute reads that miss (`AttributeError`), undefined global names
(`NameError`) and the other exceptions the source can raise are explicit
`Except` values, and heap growth or its absence is visible in the types.
-/

/-- The four operation functions whose identities are stored in `func`
slots and compared by `build`: `Query._table`, `Query._select`,
`Query._filter`, `Query._order_by`. -/
inductive FuncTag where
  | table
  | select
  | filter
  | order_by
deriving DecidableEq

/-- The Python `__name__` of each operation function. -/
def FuncTag.pyName : FuncTag → String
  | .table => "_table"
  | .select => "_select"
  | .filter => "_filter"
  | .order_by => "_order_by"

/-- Stand-in for CPython `id()` on the four function objects.  The real
values are memory addresses; `build` only uses them as sort keys to make
equal functions adjacent before `groupby`, so any injective assignment is
faithful for that purpose. -/
def FuncTag.pyId : FuncTag → Nat
  | .table => 0
  | .select => 1
  | .filter => 2
  | .order_by => 3

/-- Exceptions the source can raise, plus a fuel marker that models running
out of the iteration bound we impose on the unbounded `while True` loop of
`Query._backrefs` (no theorem below ever reaches it). -/
inductive PyErr where
  | attributeError (attr : String)
  | nameError (name : String)
  | typeError (msg : String)
  | keyError (key : String)
  | stopIteration
  | fuelOut
deriving DecidableEq

/-- Python values that occur in this module.  Query instances are heap
references (`ref`); their attribute dictionaries live in the heap. -/
inductive PyVal where
  | pynone
  | pystr (s : String)
  | pyint (n : Int)
  | pytuple (elems : List PyVal)
  | pydict (items : List (String × PyVal))
  | pyfunc (f : FuncTag)
  | ref (addr : Nat)

/-- An object is its attribute dictionary. -/
abbrev Obj := List (String × PyVal)

/-- The heap: address `a` denotes `h.get? a`; allocation appends. -/
abbrev Heap := List Obj

/-- First binding of a key in an attribute or keyword dictionary. -/
def lookupKey : List (String × PyVal) → String → Option PyVal
  | [], _ => none
  | (k', v) :: rest, k => if k' = k then some v else lookupKey rest k

/-- Python `dict.get(k, None)`. -/
def dictGet (d : List (String × PyVal)) (k : String) : PyVal :=
  match lookupKey d k with
  | some v => v
  | none => PyVal.pynone

/-- Dereference a heap address. -/
def heapGet (h : Heap) (a : Nat) : Option Obj :=
  h.get? a

/-- Attribute access `v.attr`.  Only Query instances (heap references)
carry the attributes this module reads; a miss raises `AttributeError`,
exactly as in Python. -/
def getattr (h : Heap) (v : PyVal) (attr : String) : Except PyErr PyVal :=
  match v with
  | PyVal.ref a =>
    match heapGet h a with
    | some obj =>
      match lookupKey obj attr with
      | some w => Except.ok w
      | none => Except.error (PyErr.attributeError attr)
    | none => Except.error (PyErr.attributeError attr)
  | _ => Except.error (PyErr.attributeError attr)

/-- Python truthiness for the values above (`if table:`). -/
def truthy : PyVal → Bool
  | PyVal.pynone => false
  | PyVal.pystr s => !s.isEmpty
  | PyVal.pyint n => n != 0
  | PyVal.pytuple l => !l.isEmpty
  | PyVal.pydict l => !l.isEmpty
  | PyVal.pyfunc _ => true
  | PyVal.ref _ => true

/-- The attribute dictionary built by `Query.__init__(self, table=None,
**_kwargs)`.  `self.func = Query._table` is set only when `table` is
truthy.  The four underscore attributes are read with
`_kwargs.get('_backref', None)` and so on — note the fluent methods pass
the keys WITHOUT the leading underscore, so those lookups all default to
`None`.  The `table` argument itself is never stored on the object. -/
def Query.initObj (table : PyVal) (kw : List (String × PyVal)) : Obj :=
  (if truthy table then [("func", PyVal.pyfunc FuncTag.table)] else []) ++
  [("_backref", dictGet kw "_backref"),
   ("_func", dictGet kw "_func"),
   ("_args", dictGet kw "_args"),
   ("_kwargs", dictGet kw "_kwargs")]

/-- `Query(table, **_kwargs)`: allocate the new instance, returning the
grown heap and the fresh address. -/
def Query.init (h : Heap) (table : PyVal) (kw : List (String × PyVal)) :
    Heap × Nat :=
  (h ++ [Query.initObj table kw], h.length)

/-- The public constructor `Query(table)`. -/
def Query.new (h : Heap) (t : String) : Heap × Nat :=
  Query.init h (PyVal.pystr t) []

/-- `Query.select(self, *args)`:
`return Query(backref=self, func=Query._select, args=args)`. -/
def Query.select (h : Heap) (self : Nat) (args : List PyVal) : Heap × Nat :=
  Query.init h PyVal.pynone
    [("backref", PyVal.ref self),
     ("func", PyVal.pyfunc FuncTag.select),
     ("args", PyVal.pytuple args)]

/-- `Query.filter(self, **kwargs)`:
`return Query(backref=self, func=Query._filter, kwargs=kwargs)`. -/
def Query.filter (h : Heap) (self : Nat) (kw : List (String × PyVal)) :
    Heap × Nat :=
  Query.init h PyVal.pynone
    [("backref", PyVal.ref self),
     ("func", PyVal.pyfunc FuncTag.filter),
     ("kwargs", PyVal.pydict kw)]

/-- `Query.order_by(self, *args)`:
`return Query(backref=self, func=Query._order_by, args=args)`. -/
def Query.order_by (h : Heap) (self : Nat) (args : List PyVal) : Heap × Nat :=
  Query.init h PyVal.pynone
    [("backref", PyVal.ref self),
     ("func", PyVal.pyfunc FuncTag.order_by),
     ("args", PyVal.pytuple args)]

/-- `Query._backrefs(back)`: `while True: if back is None: break;
yield back; back = back.backref`.  The consumer (`sorted` inside `build`)
drains the generator eagerly, so a raise while stepping discards all prior
yields — `Except` models that exactly.  The loop is unbounded in Python;
we bound it by fuel, which no theorem below ever exhausts because the
attribute read `back.backref` raises on the very first step (the
constructor only ever stores `_backref`). -/
def backrefs (h : Heap) : Nat → PyVal → Except PyErr (List PyVal)
  | 0, _ => Except.error PyErr.fuelOut
  | fuel + 1, back =>
    match back with
    | PyVal.pynone => Except.ok []
    | b =>
      match getattr h b "backref" with
      | Except.error e => Except.error e
      | Except.ok nxt =>
        match backrefs h fuel nxt with
        | Except.error e => Except.error e
        | Except.ok rest => Except.ok (b :: rest)

/-- `id(b.func)` once the attribute has been fetched (see
`FuncTag.pyId`; non-function values never reach this point). -/
def pyIdOf : PyVal → Nat
  | PyVal.pyfunc f => f.pyId
  | _ => 1000

/-- Insertion step of a stable sort on decorated pairs. -/
def insertPair (x : Nat × PyVal) : List (Nat × PyVal) → List (Nat × PyVal)
  | [] => [x]
  | y :: ys => if x.1 ≤ y.1 then x :: y :: ys else y :: insertPair x ys

/-- Stable sort standing in for CPython `sorted(..., key=lambda b:
id(b.func))` (Timsort is stable; insertion sort with `≤` is too). -/
def sortPairs : List (Nat × PyVal) → List (Nat × PyVal)
  | [] => []
  | x :: xs => insertPair x (sortPairs xs)

/-- Python `==` as `groupby` applies it to the group keys, which here are
always function objects, compared by identity. -/
def pyKeyEq : PyVal → PyVal → Bool
  | PyVal.pyfunc f, PyVal.pyfunc g => decide (f = g)
  | _, _ => false

/-- `itertools.groupby(backrefs, lambda k: k.func)`: group consecutive
elements whose `func` attribute compares equal; the key read can raise. -/
def groupbyFunc (h : Heap) : List PyVal → Except PyErr (List (PyVal × List PyVal))
  | [] => Except.ok []
  | x :: xs => do
    let k ← getattr h x "func"
    let rest ← groupbyFunc h xs
    match rest with
    | [] => pure [(k, [x])]
    | (k', g) :: t =>
      if pyKeyEq k k' then pure ((k', x :: g) :: t)
      else pure ((k, [x]) :: (k', g) :: t)

/-- `key.__name__` (raises on non-functions, as in Python). -/
def funcName : PyVal → Except PyErr String
  | PyVal.pyfunc f => Except.ok f.pyName
  | _ => Except.error (PyErr.attributeError "__name__")

/-- Elements produced by `for x in v` (tuples and dicts are what the
source iterates; anything else raises `TypeError`). -/
def iterElems : PyVal → Except PyErr (List PyVal)
  | PyVal.pytuple l => Except.ok l
  | PyVal.pydict l => Except.ok (l.map (fun p => PyVal.pystr p.1))
  | PyVal.pystr s => Except.ok (s.toList.map (fun c => PyVal.pystr (String.singleton c)))
  | _ => Except.error (PyErr.typeError "object is not iterable")

/-- `Query._args_get(refs)`: flatten `ref.args` over the refs.  (Defined
in the source but unreachable: the renderers that would call it through
`StaticQuery` raise `NameError` first.) -/
def args_get (h : Heap) (refs : List PyVal) : Except PyErr (List PyVal) :=
  refs.foldlM (fun acc r => do
    let a ← getattr h r "args"
    let l ← iterElems a
    pure (acc ++ l)) []

/-- `Query._kwargs_get(refs)`: flatten `ref.kwargs.items()` over the refs
(likewise unreachable in the source). -/
def kwargs_get (h : Heap) (refs : List PyVal) :
    Except PyErr (List (String × PyVal)) :=
  refs.foldlM (fun acc r => do
    let kv ← getattr h r "kwargs"
    match kv with
    | PyVal.pydict l => pure (acc ++ l)
    | _ => Except.error (PyErr.attributeError "items")) []

/-- `str(x)` as `'{}'.format(x)` applies it (object reprs abbreviated;
only unreachable paths would need them). -/
def pyFormat : PyVal → String
  | PyVal.pystr s => s
  | PyVal.pyint n => toString n
  | PyVal.pynone => "None"
  | _ => "<object>"

/-- `Query._table(refs)`: `table = next(refs)` then
`'{}'.format(table.table)`.  No Query object ever stores a `table`
attribute (the constructor discards its `table` argument), so the
attribute read raises whenever this renderer is reached. -/
def render_table (h : Heap) (refs : List PyVal) : Except PyErr String :=
  match refs with
  | [] => Except.error PyErr.stopIteration
  | t :: _ => do
    let v ← getattr h t "table"
    pure (pyFormat v)

/-- `Query._select(refs)`: its first statement evaluates the global name
`StaticQuery`, which is defined nowhere in `src/query.py`, so `NameError`
is raised before `_args_get` or the join ever runs. -/
def render_select (_h : Heap) (_refs : List PyVal) : Except PyErr String :=
  Except.error (PyErr.nameError "StaticQuery")

/-- `Query._filter(refs)`: also evaluates the undefined global
`StaticQuery` first (and would additionally call `.items()` on a
generator if it got further). -/
def render_filter (_h : Heap) (_refs : List PyVal) : Except PyErr String :=
  Except.error (PyErr.nameError "StaticQuery")

/-- `Query._order_by(refs)`: also evaluates the undefined global
`StaticQuery` first. -/
def render_order_by (_h : Heap) (_refs : List PyVal) : Except PyErr String :=
  Except.error (PyErr.nameError "StaticQuery")

/-- `getattr(Query, key.__name__)(section)`: dispatch on the operation
function's name to the corresponding static renderer. -/
def dispatch (h : Heap) (name : String) (grp : List PyVal) :
    Except PyErr String :=
  if name = "_table" then render_table h grp
  else if name = "_select" then render_select h grp
  else if name = "_filter" then render_filter h grp
  else if name = "_order_by" then render_order_by h grp
  else Except.error (PyErr.attributeError name)

/-- Lookup in the local `kwargs` string dictionary of `build`. -/
def lookupStr : List (String × String) → String → Option String
  | [], _ => none
  | (k', v) :: rest, k => if k' = k then some v else lookupStr rest k

/-- Python dict assignment `d[k] = v` (updates in place, keeps first
position on overwrite). -/
def dictSet : List (String × String) → String → String → List (String × String)
  | [], k, v => [(k, v)]
  | (k', v') :: rest, k, v =>
    if k' = k then (k, v) :: rest else (k', v') :: dictSet rest k v

/-- Truthiness of `kwargs.get('filter')` / `kwargs.get('order_by')`:
`None` and the empty string are falsy. -/
def strOptTruthy : Option String → Bool
  | none => false
  | some s => !s.isEmpty

def lbrace : Char := Char.ofNat 123
def rbrace : Char := Char.ofNat 125

/-- Worker for `str.format(**kwargs)`: scans the template; between the
braces a placeholder name is collected and substituted, raising
`KeyError` when absent, as Python does. -/
def formatAux (kw : List (String × String)) :
    Option (List Char) → List Char → Except PyErr String
  | none, [] => Except.ok ""
  | none, c :: rest =>
    if c = lbrace then formatAux kw (some []) rest
    else
      match formatAux kw none rest with
      | Except.ok s => Except.ok (String.singleton c ++ s)
      | Except.error e => Except.error e
  | some _, [] => Except.error (PyErr.typeError "unterminated placeholder")
  | some acc, c :: rest =>
    if c = rbrace then
      match lookupStr kw (String.mk acc.reverse) with
      | some v =>
        match formatAux kw none rest with
        | Except.ok s => Except.ok (v ++ s)
        | Except.error e => Except.error e
      | none => Except.error (PyErr.keyError (String.mk acc.reverse))
    else formatAux kw (some (c :: acc)) rest

/-- `result.format(**kwargs)`. -/
def formatMap (templ : String) (kw : List (String × String)) :
    Except PyErr String :=
  formatAux kw none templ.toList

/-- Body of `Query.build` after the traversal has been drained: decorate
with `id(b.func)`, stable-sort, group consecutively by `k.func`, render
each group through `getattr(Query, key.__name__)`, then assemble and
format the `'{select} {table}'`-based template. -/
def buildRest (h : Heap) (lst : List PyVal) : Except PyErr String := do
  let decorated ← lst.mapM (fun b => do
    let f ← getattr h b "func"
    pure (pyIdOf f, b))
  let sortedRefs := (sortPairs decorated).map Prod.snd
  let groups ← groupbyFunc h sortedRefs
  let kwargs ← groups.foldlM (fun acc kg => do
    let name ← funcName kg.1
    let frag ← dispatch h name kg.2
    pure (dictSet acc (name.drop 1) frag)) ([] : List (String × String))
  let t0 := "{select} {table}"
  let t1 := if strOptTruthy (lookupStr kwargs "filter") then t0 ++ " {filter}" else t0
  let t2 := if strOptTruthy (lookupStr kwargs "order_by") then t1 ++ " {order_by}" else t1
  formatMap (t2 ++ ";") kwargs

/-- `Query.build(self)`.  The first statement,
`sorted(Query._backrefs(self), key=lambda b: id(b.func))`, drains the
traversal before any key is computed, so an exception raised while
stepping the generator is the exception `build` raises. -/
def Query.build (h : Heap) (a : Nat) : Except PyErr String :=
  match backrefs h (h.length + 1) (PyVal.ref a) with
  | Except.error e => Except.error e
  | Except.ok lst => buildRest h lst

/-- Heaps reachable through the public API: start empty, then any
sequence of `Query(table)` constructions and `select`/`filter`/`order_by`
calls on existing handles.  Every allocated address is the handle some
API call returned. -/
inductive ApiHeap : Heap → Prop where
  | nil : ApiHeap []
  | new {h : Heap} (t : String) : ApiHeap h → ApiHeap (Query.new h t).1
  | sel {h : Heap} {a : Nat} (args : List PyVal) :
      ApiHeap h → a < h.length → ApiHeap (Query.select h a args).1
  | flt {h : Heap} {a : Nat} (kw : List (String × PyVal)) :
      ApiHeap h → a < h.length → ApiHeap (Query.filter h a kw).1
  | ord {h : Heap} {a : Nat} (args : List PyVal) :
      ApiHeap h → a < h.length → ApiHeap (Query.order_by h a args).1

/-- Objects allocated by `Query.__init__` never carry a `backref`
attribute: the constructor stores only `func` (maybe) and the four
underscore-prefixed slots. -/
lemma initObj_no_backref (t : PyVal) (kw : List (String × PyVal)) :
    lookupKey (Query.initObj t kw) "backref" = none := by
  unfold Query.initObj
  cases htr : truthy t
  · simp only [htr, Bool.false_eq_true, if_false]
    rfl
  · simp only [htr, if_true]
    rfl

/-- In any heap built through the public API, no object has a `backref`
attribute (the fluent methods pass the key `backref` into `**_kwargs`,
but the constructor only ever reads and stores `_backref`). -/
lemma apiHeap_no_backref {h : Heap} (hh : ApiHeap h) :
    ∀ obj ∈ h, lookupKey obj "backref" = none := by
  induction hh with
  | nil => intro obj hobj; cases hobj
  | new t _ ih =>
    intro obj hobj
    rcases List.mem_append.mp hobj with hmem | hmem
    · exact ih obj hmem
    · rw [List.mem_singleton.mp hmem]; exact initObj_no_backref _ _
  | sel args _ _ ih =>
    intro obj hobj
    rcases List.mem_append.mp hobj with hmem | hmem
    · exact ih obj hmem
    · rw [List.mem_singleton.mp hmem]; exact initObj_no_backref _ _
  | flt kw _ _ ih =>
    intro obj hobj
    rcases List.mem_append.mp hobj with hmem | hmem
    · exact ih obj hmem
    · rw [List.mem_singleton.mp hmem]; exact initObj_no_backref _ _
  | ord args _ _ ih =>
    intro obj hobj
    rcases List.mem_append.mp hobj with hmem | hmem
    · exact ih obj hmem
    · rw [List.mem_singleton.mp hmem]; exact initObj_no_backref _ _

/-- Unfolding of one traversal step on a live reference. -/
lemma backrefs_succ_ref (h : Heap) (fuel a) :
    backrefs h (fuel + 1) (PyVal.ref a) =
      match getattr h (PyVal.ref a) "backref" with
      | Except.error e => Except.error e
      | Except.ok nxt =>
        match backrefs h fuel nxt with
        | Except.error e => Except.error e
        | Except.ok rest => Except.ok (PyVal.ref a :: rest) := rfl

/-- The last element of an allocation is found at the old length. -/
lemma get?_append_singleton (l : List Obj) (x : Obj) :
    (l ++ [x]).get? l.length = some x := by
  induction l with
  | nil => rfl
  | cons y ys ih => exact ih

/-- Claim C1: for every handle constructed through the public API
(`Query(table)` followed by any sequence of `select`/`filter`/`order_by`
calls), invoking `build()` raises an exception instead of returning a
string — concretely, `AttributeError` for `backref`, because
`Query._backrefs` reads `back.backref` while the constructor only ever
stores `_backref` (and, further down dead paths, the root never stores
the `table` attribute that `Query._table` reads, and the renderers
reference the undefined global `StaticQuery`). -/
theorem build_raises_attribute_error (h : Heap) (a : Nat)
    (hh : ApiHeap h) (ha : a < h.length) :
    Query.build h a = Except.error (PyErr.attributeError "backref") := by
  obtain ⟨obj, hget⟩ : ∃ obj, h.get? a = some obj :=
    ⟨h.get ⟨a, ha⟩, List.get?_eq_get ha⟩
  have hmem : obj ∈ h := List.get?_mem hget
  have hnb : lookupKey obj "backref" = none := apiHeap_no_backref hh obj hmem
  have hga : getattr h (PyVal.ref a) "backref" =
      Except.error (PyErr.attributeError "backref") := by
    simp only [getattr, heapGet, hget, hnb]
  have hbr : backrefs h (h.length + 1) (PyVal.ref a) =
      Except.error (PyErr.attributeError "backref") := by
    rw [backrefs_succ_ref, hga]
  unfold Query.build
  rw [hbr]

/-- The concrete handle `Query('T').select('id')`. -/
def c1_handle : Heap × Nat :=
  Query.select (Query.new [] "T").1 (Query.new [] "T").2 [PyVal.pystr "id"]

/-- Witness for C1 at the concrete handle `Query('T').select('id')`. -/
theorem build_raises_attribute_error_witness :
    ApiHeap c1_handle.1 ∧ c1_handle.2 < c1_handle.1.length ∧
      Query.build c1_handle.1 c1_handle.2 =
        Except.error (PyErr.attributeError "backref") :=
  ⟨ApiHeap.sel [PyVal.pystr "id"] (ApiHeap.new "T" ApiHeap.nil) (by decide),
   by decide,
   build_raises_attribute_error c1_handle.1 c1_handle.2
     (ApiHeap.sel [PyVal.pystr "id"] (ApiHeap.new "T" ApiHeap.nil) (by decide))
     (by decide)⟩

/-- The chain `Query('T').select('a').filter(x='1').order_by('b')`. -/
def c2_chain : Heap × Nat :=
  let q0 := Query.new [] "T"
  let q1 := Query.select q0.1 q0.2 [PyVal.pystr "a"]
  let q2 := Query.filter q1.1 q1.2 [("x", PyVal.pystr "1")]
  Query.order_by q2.1 q2.2 [PyVal.pystr "b"]

/-- Claim C2 (refuting evaluation): on the chain
`Query('T').select('a').filter(x='1').order_by('b')`, `build()` raises
`AttributeError('backref')` and therefore emits no clause groups at all,
in canonical order or any other (the `'{select} {table} …'` template that
would impose the canonical order is never reached). -/
theorem clause_order_chain_build_raises :
    Query.build c2_chain.1 c2_chain.2 =
      Except.error (PyErr.attributeError "backref") := rfl

/-- The chain `Query('T').select('a').filter(x='1')`. -/
def c3_sel_then_flt : Heap × Nat :=
  let q0 := Query.new [] "T"
  let q1 := Query.select q0.1 q0.2 [PyVal.pystr "a"]
  Query.filter q1.1 q1.2 [("x", PyVal.pystr "1")]

/-- The permuted chain `Query('T').filter(x='1').select('a')`. -/
def c3_flt_then_sel : Heap × Nat :=
  let q0 := Query.new [] "T"
  let q1 := Query.filter q0.1 q0.2 [("x", PyVal.pystr "1")]
  Query.select q1.1 q1.2 [PyVal.pystr "a"]

/-- Claim C3 (refuting evaluation): both call-order permutations of
`select('a')` and `filter(x='1')` on `Query('T')` make `build()` raise
`AttributeError('backref')` — neither permutation yields any string. -/
theorem permuted_chains_both_raise :
    Query.build c3_sel_then_flt.1 c3_sel_then_flt.2 =
        Except.error (PyErr.attributeError "backref") ∧
      Query.build c3_flt_then_sel.1 c3_flt_then_sel.2 =
        Except.error (PyErr.attributeError "backref") :=
  ⟨rfl, rfl⟩

/-- The chain `Query('T').select('a').select('b')`. -/
def c4_two_selects : Heap × Nat :=
  let q0 := Query.new [] "T"
  let q1 := Query.select q0.1 q0.2 [PyVal.pystr "a"]
  Query.select q1.1 q1.2 [PyVal.pystr "b"]

/-- The chain `Query('T').select('a', 'b')`. -/
def c4_one_select : Heap × Nat :=
  let q0 := Query.new [] "T"
  Query.select q0.1 q0.2 [PyVal.pystr "a", PyVal.pystr "b"]

/-- Claim C4 (refuting evaluation): `Query('T').select('a').select('b')`
and `Query('T').select('a','b')` both raise `AttributeError('backref')`
from `build()`; neither returns `"SELECT a, b FROM T;"`. -/
theorem select_accumulation_chains_raise :
    Query.build c4_two_selects.1 c4_two_selects.2 =
        Except.error (PyErr.attributeError "backref") ∧
      Query.build c4_one_select.1 c4_one_select.2 =
        Except.error (PyErr.attributeError "backref") :=
  ⟨rfl, rfl⟩

/-- The chain `Query('T').select('*').filter(x=1).filter(x=2)`. -/
def c5_chain : Heap × Nat :=
  let q0 := Query.new [] "T"
  let q1 := Query.select q0.1 q0.2 [PyVal.pystr "*"]
  let q2 := Query.filter q1.1 q1.2 [("x", PyVal.pyint 1)]
  Query.filter q2.1 q2.2 [("x", PyVal.pyint 2)]

/-- Claim C5 (refuting evaluation): on
`Query('T').select('*').filter(x=1).filter(x=2)`, `build()` raises
`AttributeError('backref')` and renders no condition at all — neither the
claimed winning value 2 nor 1. -/
theorem filter_last_write_chain_raises :
    Query.build c5_chain.1 c5_chain.2 =
      Except.error (PyErr.attributeError "backref") := rfl

/-- The chain `Query('Person').select('id').filter(name='Bill', age=18)`. -/
def c6_chain : Heap × Nat :=
  let q0 := Query.new [] "Person"
  let q1 := Query.select q0.1 q0.2 [PyVal.pystr "id"]
  Query.filter q1.1 q1.2 [("name", PyVal.pystr "Bill"), ("age", PyVal.pyint 18)]

/-- Claim C6 (refuting evaluation): on
`Query('Person').select('id').filter(name='Bill', age=18)`, `build()`
raises `AttributeError('backref')` instead of returning the claimed
quoted-and-AND-joined statement. -/
theorem multi_key_filter_chain_raises :
    Query.build c6_chain.1 c6_chain.2 =
      Except.error (PyErr.attributeError "backref") := rfl

/-- The shared prefix `Query('T').select('a')`. -/
def c7_pre : Heap × Nat :=
  Query.select (Query.new [] "T").1 (Query.new [] "T").2 [PyVal.pystr "a"]

/-- Branch one: the prefix extended by `.select('b')`. -/
def c7_br1 : Heap × Nat := Query.select c7_pre.1 c7_pre.2 [PyVal.pystr "b"]

/-- Branch two: the same prefix extended by `.filter(x=1)` after branch
one already exists. -/
def c7_br2 : Heap × Nat := Query.filter c7_br1.1 c7_pre.2 [("x", PyVal.pyint 1)]

/-- Claim C7 (evaluation): each fluent call is indeed a pure allocation —
the heap grows by exactly one fresh object and every pre-existing object
is untouched, and branch one's `build()` outcome is unchanged by branch
two's allocation — but neither branch's `build()` succeeds: both raise
`AttributeError('backref')` instead of building. -/
theorem branching_pure_allocation_but_build_raises :
    c7_br1.1 = c7_pre.1 ++
        [Query.initObj PyVal.pynone
          [("backref", PyVal.ref c7_pre.2),
           ("func", PyVal.pyfunc FuncTag.select),
           ("args", PyVal.pytuple [PyVal.pystr "b"])]] ∧
      c7_br2.1 = c7_br1.1 ++
        [Query.initObj PyVal.pynone
          [("backref", PyVal.ref c7_pre.2),
           ("func", PyVal.pyfunc FuncTag.filter),
           ("kwargs", PyVal.pydict [("x", PyVal.pyint 1)])]] ∧
      Query.build c7_br2.1 c7_br1.2 = Query.build c7_br1.1 c7_br1.2 ∧
      Query.build c7_br1.1 c7_br1.2 =
        Except.error (PyErr.attributeError "backref") ∧
      Query.build c7_br2.1 c7_br2.2 =
        Except.error (PyErr.attributeError "backref") :=
  ⟨rfl, rfl, rfl, rfl, rfl⟩

/-- Two renders of the same handle.  The source `build` assigns only
local variables (the drained traversal, the groups, the local `kwargs`
dict and the template string) and never writes an attribute of `self` or
of any node, so the second call runs on an unchanged handle and heap;
the embedding's `build` is accordingly heap-reading. -/
def buildTwice (h : Heap) (a : Nat) :
    Except PyErr String × Except PyErr String :=
  (Query.build h a, Query.build h a)

/-- Claim C8: `build()` is a deterministic pure function of the terminal
handle — invoking it twice on the same handle yields the first call's
outcome both times, with no internal state advancing between renders. -/
theorem build_idempotent_render :
    ∀ (h : Heap) (a : Nat),
      (buildTwice h a).1 = Query.build h a ∧
        (buildTwice h a).2 = Query.build h a ∧
        (buildTwice h a).1 = (buildTwice h a).2 :=
  fun _ _ => ⟨rfl, rfl, rfl⟩

/-- The terminal handle of `Query('T').select('a')`. -/
def c9_chain : Heap × Nat :=
  Query.select (Query.new [] "T").1 (Query.new [] "T").2 [PyVal.pystr "a"]

/-- Claim C9 (refuting evaluation): for the handle
`Query('T').select('a')`, the stored back-reference `_backref` is `None`
— so the chain followed via the back-reference is the terminal node
alone and never reaches the root — that sole node has no `func`
attribute, hence no Table kind (zero Table nodes in the chain, not
exactly one), and the traversal `Query._backrefs` used by `build` raises
`AttributeError('backref')` after its first yield instead of yielding
through to the root. -/
theorem chain_invariant_violated :
    getattr c9_chain.1 (PyVal.ref c9_chain.2) "_backref" =
        Except.ok PyVal.pynone ∧
      getattr c9_chain.1 (PyVal.ref c9_chain.2) "func" =
        Except.error (PyErr.attributeError "func") ∧
      backrefs c9_chain.1 (c9_chain.1.length + 1) (PyVal.ref c9_chain.2) =
        Except.error (PyErr.attributeError "backref") :=
  ⟨rfl, rfl, rfl⟩

/-- Claim C10: every node created by `select`, `filter`, or `order_by`
stores `None` in all four of `_backref`, `_func`, `_args` and `_kwargs`:
the constructor reads the underscore-prefixed keys from its keyword
arguments while the fluent methods pass `backref`/`func`/`args`/`kwargs`,
so the lookups all default to `None` and no node ever links to its
predecessor. -/
theorem fluent_nodes_store_only_none :
    ∀ (h : Heap) (a : Nat) (args : List PyVal) (kw : List (String × PyVal)),
      (Query.select h a args).1.get? (Query.select h a args).2 =
          some [("_backref", PyVal.pynone), ("_func", PyVal.pynone),
                ("_args", PyVal.pynone), ("_kwargs", PyVal.pynone)] ∧
        (Query.filter h a kw).1.get? (Query.filter h a kw).2 =
          some [("_backref", PyVal.pynone), ("_func", PyVal.pynone),
                ("_args", PyVal.pynone), ("_kwargs", PyVal.pynone)] ∧
        (Query.order_by h a args).1.get? (Query.order_by h a args).2 =
          some [("_backref", PyVal.pynone), ("_func", PyVal.pynone),
                ("_args", PyVal.pynone), ("_kwargs", PyVal.pynone)] := by
  intro h a args kw
  exact ⟨get?_append_singleton h _, get?_append_singleton h _,
    get?_append_singleton h _⟩
